import Mathlib

/-!
# VlogSphere — verification of the session-rotation and view-counting core

Shallow embedding of the refresh-token rotation protocol
(`backend/src/middleware/correlation.js` `refreshToken`, `logout`;
`backend/src/models/User.js` `revokeAllSessions`, `hashRefreshToken`;
the auth controller's `register`/`login` token-issuance blocks) and of the
view-deduplication pipeline (`VlogService.recordView`, `VlogService.getVlog`,
and the `recordView` HTTP controller).

Modelling conventions:
* MongoDB collections are association lists keyed by id; `findById` is the
  first match, a save writes the record back in place.
* A JWT is either a well-formed signed token (its decoded payload, including
  the absolute `exp` claim) or garbage that fails `jwt.verify`; signing is
  deterministic, so a token is identified with its payload.
* `bcrypt` hashing of refresh tokens is modelled by an injective constructor
  `TokHash.hashOf` (a collision-free one-way hash); `bcrypt.compare t h`
  holds exactly when `h` is the hash of `t`.  The empty-string default of the
  Mongoose schema is `TokHash.empty`.
* Redis `SET key val NX EX ttl` is an atomic insert-if-absent with expiry on
  an entry list; an unavailable cache makes the primitive throw, which the
  JS `try`/`catch` in `recordView` observes.
* Thrown JS exceptions are `Except` errors: `JsFault.typeError` is the
  `TypeError` raised by reading `.views` of `null`, `JsFault.cacheUnavailable`
  the rejected Redis promise, `JsFault.notFound` an `ErrorResponse(404)`.
-/

namespace VlogSphere

/-- Environment configuration `JWT_EXPIRE` (access-token lifetime), in
seconds.  The concrete value is immaterial to every claim. -/
def jwtExpireSecs : Nat := 7 * 24 * 60 * 60

/-- Environment configuration `JWT_REFRESH_EXPIRE` (refresh-token lifetime),
in seconds.  The concrete value is immaterial to every claim. -/
def jwtRefreshExpireSecs : Nat := 30 * 24 * 60 * 60

/-- Decoded payload of a refresh-token JWT: `{ id, tokenFamily, tokenVersion }`
plus the `exp` claim added by `jwt.sign` (absolute expiry time). -/
structure RefreshPayload where
  id : Nat
  tokenFamily : String
  tokenVersion : Nat
  exp : Nat
deriving Repr, DecidableEq

/-- A presented refresh token: either a token signed with
`JWT_REFRESH_SECRET` (identified with its payload, signing being
deterministic) or a string that fails signature verification. -/
inductive RefreshTok where
  | signed (p : RefreshPayload)
  | garbage (s : String)
deriving Repr, DecidableEq

/-- Outcome of `jwt.verify(refreshToken, JWT_REFRESH_SECRET)`. -/
inductive VerifyResult where
  | ok (p : RefreshPayload)
  | expired
  | badSignature
deriving Repr, DecidableEq

/-- `jwt.verify` on a refresh token at time `now`: garbage throws
`JsonWebTokenError`, a signed token past its `exp` throws
`TokenExpiredError`, otherwise the payload is returned. -/
def verifyRefresh (now : Nat) : RefreshTok → VerifyResult
  | .signed p => if p.exp < now then .expired else .ok p
  | .garbage _ => .badSignature

/-- A stored refresh-token hash (`User.refreshTokenHash`): the schema default
`''` or the bcrypt hash of a token.  `hashOf` being a constructor makes the
model hash collision-free and one-way as a type: a `TokHash` is not a
`RefreshTok`. -/
inductive TokHash where
  | empty
  | hashOf (t : RefreshTok)
deriving Repr, DecidableEq

/-- `bcrypt.compare(token, storedHash)`: true exactly when `storedHash` is the
hash of `token` (constant-time in the source; timing is not modelled). -/
def bcryptCompare (t : RefreshTok) (h : TokHash) : Bool :=
  decide (h = TokHash.hashOf t)

/-- The session-state slice of a `User` document (`models/User.js`):
the fields the rotation protocol reads and writes.  Profile fields
(username, email, avatar, …) do not influence any claim and are omitted. -/
structure UserRec where
  id : Nat
  tokenFamily : String
  tokenVersion : Nat
  refreshTokenHash : TokHash
  revokedAt : Option Nat
deriving Repr, DecidableEq

/-- `User.findById`: first document whose `_id` matches. -/
def findById (db : List UserRec) (i : Nat) : Option UserRec :=
  db.find? (fun u => u.id == i)

/-- `user.save()`: write the document back over the stored one with the
same `_id`. -/
def saveUser (db : List UserRec) (u : UserRec) : List UserRec :=
  db.map (fun v => if v.id == u.id then u else v)

/-- `userSchema.methods.revokeAllSessions` (`models/User.js`):
`revokedAt = now`, `tokenVersion = 0`, `tokenFamily = ''`,
`refreshTokenHash = ''`. -/
def revokeAllSessions (u : UserRec) (now : Nat) : UserRec :=
  { u with revokedAt := some now, tokenVersion := 0,
           tokenFamily := "", refreshTokenHash := .empty }

/-- An access token: `jwt.sign({ id }, JWT_SECRET, { expiresIn: JWT_EXPIRE })`. -/
structure AccessTok where
  id : Nat
  exp : Nat
deriving Repr, DecidableEq

/-- `generateToken` / the inline access-token mint in `refreshToken`. -/
def mintAccess (uid now : Nat) : AccessTok :=
  { id := uid, exp := now + jwtExpireSecs }

/-- `generateRefreshToken(id, tokenFamily, tokenVersion)` /
the inline refresh-token mint in `refreshToken`. -/
def mintRefresh (uid : Nat) (fam : String) (ver now : Nat) : RefreshTok :=
  .signed { id := uid, tokenFamily := fam, tokenVersion := ver,
            exp := now + jwtRefreshExpireSecs }

/-- Errors surfaced by the rotation middleware (each is an
`ErrorResponse(..., 401)` with the message shown in the source). -/
inductive RotateError where
  /-- `'Refresh token is required'` (no token in the request body). -/
  | missingToken
  /-- `'Invalid refresh token'` (bad signature, family mismatch, hash
  mismatch, or non-reuse version mismatch). -/
  | invalidToken
  /-- `'Refresh token has expired. Please log in again.'` -/
  | expiredToken
  /-- `'User not found'`. -/
  | principalNotFound
  /-- `'Session has been revoked. Please log in again.'` -/
  | sessionRevoked
  /-- `'Token reuse detected. All sessions have been revoked ...'`. -/
  | tokenReuseDetected
deriving Repr, DecidableEq

/-- Successful rotation response payload (the token fields of the JSON body;
the mirrored public profile fields are omitted). -/
structure RotateOk where
  accessToken : AccessTok
  refreshToken : RefreshTok
deriving Repr, DecidableEq

/-- `exports.refreshToken` (`middleware/correlation.js`): the rotation
protocol, returning the HTTP result together with the user store after the
request (the store changes only where the source calls `user.save()`). -/
def rotate (db : List UserRec) (now : Nat) (tok? : Option RefreshTok) :
    Except RotateError RotateOk × List UserRec :=
  match tok? with
  | none => (.error .missingToken, db)
  | some tok =>
    match verifyRefresh now tok with
    | .badSignature => (.error .invalidToken, db)
    | .expired => (.error .expiredToken, db)
    | .ok pl =>
      match findById db pl.id with
      | none => (.error .principalNotFound, db)
      | some user =>
        if user.revokedAt.isSome then
          (.error .sessionRevoked, db)
        else if user.tokenFamily ≠ pl.tokenFamily then
          (.error .invalidToken, db)
        else if ¬ bcryptCompare tok user.refreshTokenHash then
          (.error .invalidToken, db)
        else if pl.tokenVersion < user.tokenVersion then
          (.error .tokenReuseDetected, saveUser db (revokeAllSessions user now))
        else if user.tokenVersion ≠ pl.tokenVersion then
          (.error .invalidToken, db)
        else
          let newVersion := user.tokenVersion + 1
          let newRefresh := mintRefresh user.id user.tokenFamily newVersion now
          let u' := { user with refreshTokenHash := TokHash.hashOf newRefresh,
                                tokenVersion := newVersion }
          (.ok { accessToken := mintAccess user.id now, refreshToken := newRefresh },
           saveUser db u')

/-- Errors of the auth controller paths modelled here. -/
inductive AuthError where
  /-- `'Invalid credentials'` / missing fields on login. -/
  | invalidCredentials
  /-- `'User already exists with this email or username'` on register. -/
  | userExists
deriving Repr, DecidableEq

/-- Successful login/registration response: the token fields of the JSON
body plus the saved user document (the response mirrors its public fields). -/
structure AuthOk where
  token : AccessTok
  refreshToken : RefreshTok
  user : UserRec
deriving Repr, DecidableEq

/-- The shared token-issuance block of `register` and `login` in the auth
controller: `tokenFamily = crypto.randomBytes(16).toString('hex')` (modelled
as the parameter `freshFamily`, the freshly drawn random value),
`tokenVersion = 1`, a refresh token minted over them,
`refreshTokenHash = await user.hashRefreshToken(refreshToken)`,
`revokedAt = null`, and both tokens returned. -/
def beginSession (u : UserRec) (freshFamily : String) (now : Nat) : AuthOk :=
  let rt := mintRefresh u.id freshFamily 1 now
  { token := mintAccess u.id now
    refreshToken := rt
    user := { u with refreshTokenHash := TokHash.hashOf rt,
                     tokenFamily := freshFamily, tokenVersion := 1,
                     revokedAt := none } }

/-- `exports.login` (auth controller): the credential lookup is by email in
the source; identity being opaque, the lookup key is modelled by the user id,
and the outcome of `user.comparePassword(password)` by the boolean
`passwordMatches`.  On success the token-issuance block runs and the user is
saved. -/
def login (db : List UserRec) (uid : Nat) (passwordMatches : Bool)
    (freshFamily : String) (now : Nat) :
    Except AuthError AuthOk × List UserRec :=
  match findById db uid with
  | none => (.error .invalidCredentials, db)
  | some u =>
    if ¬ passwordMatches then (.error .invalidCredentials, db)
    else
      let out := beginSession u freshFamily now
      (.ok out, saveUser db out.user)

/-- `exports.register` (auth controller): duplicate check, `User.create`
(modelled by the caller-supplied fresh document `newUser`), then the same
token-issuance block as login, and the created user appended to the store. -/
def register (db : List UserRec) (newUser : UserRec) (freshFamily : String)
    (now : Nat) : Except AuthError AuthOk × List UserRec :=
  match findById db newUser.id with
  | some _ => (.error .userExists, db)
  | none =>
    let out := beginSession newUser freshFamily now
    (.ok out, db ++ [out.user])

/-!
## View-counting pipeline (`VlogService` and the `recordView` controller)
-/

/-- The slice of a `Vlog` document the view pipeline touches. -/
structure VlogRec where
  id : String
  views : Nat
deriving Repr, DecidableEq

/-- `Vlog.findById`. -/
def findVlog (db : List VlogRec) (i : String) : Option VlogRec :=
  db.find? (fun v => v.id == i)

/-- `Vlog.findByIdAndUpdate(id, { $inc: { views: 1 } }, { new: true })`:
`none` when no document matches (the source then holds `null`), otherwise
the updated document and the updated store. -/
def findByIdAndUpdateIncViews (db : List VlogRec) (i : String) :
    Option (VlogRec × List VlogRec) :=
  match findVlog db i with
  | none => none
  | some v =>
    let v' := { v with views := v.views + 1 }
    some (v', db.map (fun w => if w.id == i then v' else w))

/-- Thrown JS exceptions reaching `asyncHandler`. -/
inductive JsFault where
  /-- `TypeError` from reading `.views` of `null`. -/
  | typeError
  /-- A rejected Redis promise (connection refused / timeout). -/
  | cacheUnavailable
  /-- `ErrorResponse('Vlog not found', 404)`. -/
  | notFound
deriving Repr, DecidableEq

/-- The Redis tier: its entries (key, absolute expiry) and whether the
connection is up.  When down, every command rejects. -/
structure CacheState where
  available : Bool
  entries : List (String × Nat)
deriving Repr, DecidableEq

/-- Whether `key` is present and unexpired at time `now`. -/
def cacheHasKey (c : CacheState) (key : String) (now : Nat) : Bool :=
  c.entries.any (fun e => e.1 == key && now < e.2)

/-- `redis.set(key, '1', 'NX', 'EX', ttl)`: atomic insert-if-absent with
expiry.  Returns `true` (the source's `'OK'`) when the key was absent and is
now set, `false` (the source's `null`) when it was present; rejects when the
tier is down. -/
def setNxEx (c : CacheState) (key : String) (ttl now : Nat) :
    Except JsFault (Bool × CacheState) :=
  if ¬ c.available then .error .cacheUnavailable
  else if cacheHasKey c key now then .ok (false, c)
  else .ok (true, { c with entries := (key, now + ttl) :: c.entries })

/-- The dedup key template `view:{vlogId}:{viewerId}`. -/
def viewKey (vlogId viewerId : String) : String :=
  "view:" ++ vlogId ++ ":" ++ viewerId

/-- The result object of `VlogService.recordView`.  `degraded` is an optional
JS field: `none` models its absence from the object. -/
structure ViewResult where
  incremented : Bool
  views : Nat
  degraded : Option Bool
deriving Repr, DecidableEq

/-- The `catch (redisError)` block of `VlogService.recordView`: increment the
durable counter directly and report `degraded: true`; if the vlog does not
exist the update returns `null` and reading `.views` throws a `TypeError`
that propagates to the caller. -/
def recordViewCatch (db : List VlogRec) (c : CacheState) (vlogId : String) :
    Except JsFault ViewResult × List VlogRec × CacheState :=
  match findByIdAndUpdateIncViews db vlogId with
  | none => (.error .typeError, db, c)
  | some (v, db') =>
    (.ok { incremented := true, views := v.views, degraded := some true }, db', c)

/-- `VlogService.recordView(vlogId, viewerId)`: atomic `SET NX EX` on the
dedup key, then either a counted view (counter incremented) or a duplicate
(counter read only).  Any exception inside the `try` — the rejected Redis
promise, but also the `TypeError` from a missing vlog — lands in the
`catch (redisError)` block. -/
def recordView (db : List VlogRec) (c : CacheState) (now ttl : Nat)
    (vlogId viewerId : String) :
    Except JsFault ViewResult × List VlogRec × CacheState :=
  match setNxEx c (viewKey vlogId viewerId) ttl now with
  | .error _ => recordViewCatch db c vlogId
  | .ok (true, c') =>
    match findByIdAndUpdateIncViews db vlogId with
    | none => recordViewCatch db c' vlogId
    | some (v, db') =>
      (.ok { incremented := true, views := v.views, degraded := none }, db', c')
  | .ok (false, c') =>
    match findVlog db vlogId with
    | none => recordViewCatch db c' vlogId
    | some v =>
      (.ok { incremented := false, views := v.views, degraded := none }, db, c')

/-- The JSON `data` object built by the `recordView` HTTP controller:
`{ views, hasViewed: true, incremented, ttl }`.  `degraded` is typed as an
optional field so that its absence from the source's object literal is
expressible (`none`). -/
structure ViewResponseData where
  views : Nat
  hasViewed : Bool
  incremented : Bool
  ttl : Nat
  degraded : Option Bool
deriving Repr, DecidableEq

/-- `exports.recordView` (vlog controller): derive nothing here beyond the
already-derived `viewerId`, call the service, and on success answer 200 with
`{ views: result.views, hasViewed: true, incremented: result.incremented,
ttl }`.  A service fault propagates through `asyncHandler` to the error
middleware. -/
def recordViewEndpoint (db : List VlogRec) (c : CacheState) (now ttl : Nat)
    (vlogId viewerId : String) :
    Except JsFault ViewResponseData × List VlogRec × CacheState :=
  match recordView db c now ttl vlogId viewerId with
  | (.error f, db', c') => (.error f, db', c')
  | (.ok r, db', c') =>
    (.ok { views := r.views, hasViewed := true, incremented := r.incremented,
           ttl := ttl, degraded := none }, db', c')

/-- `VlogService.getVlog(vlogId, userId)`: a pure read of the vlog store
(likes, comments and author population touch other collections and are
omitted).  The source performs no update call on the `Vlog` collection, so
the store comes back as it went in. -/
def getVlog (db : List VlogRec) (i : String) :
    Except JsFault VlogRec × List VlogRec :=
  match findVlog db i with
  | none => (.error .notFound, db)
  | some v => (.ok v, db)

/-- `VlogService.getVlogs` (the list endpoint): a filtered/sorted read of the
vlog store with no update call. -/
def listVlogs (db : List VlogRec) : List VlogRec × List VlogRec :=
  (db, db)

/-- The service entry points reachable from the content routes, for the
frame property over call sequences. -/
inductive SvcOp where
  | fetchOne (vlogId : String)
  | listAll
  | record (vlogId viewerId : String)
deriving Repr, DecidableEq

/-- The read-only fetch/list operations (everything except `record`). -/
def isReadOnlyOp : SvcOp → Bool
  | .record _ _ => false
  | _ => true

/-- Combined state of the vlog store and the cache tier. -/
structure SvcState where
  vlogs : List VlogRec
  cache : CacheState
deriving Repr, DecidableEq

/-- One service call against the combined state. -/
def applyOp (now ttl : Nat) (st : SvcState) : SvcOp → SvcState
  | .fetchOne i => { st with vlogs := (getVlog st.vlogs i).2 }
  | .listAll => { st with vlogs := (listVlogs st.vlogs).2 }
  | .record i w =>
    let r := recordView st.vlogs st.cache now ttl i w
    { vlogs := r.2.1, cache := r.2.2 }

/-!
## Helper lemmas
-/

/-- A verified refresh token is the signed token of its returned payload. -/
theorem verifyRefresh_ok_eq {now : Nat} {tok : RefreshTok} {pl : RefreshPayload}
    (h : verifyRefresh now tok = .ok pl) : tok = .signed pl := by
  cases tok with
  | signed p =>
    by_cases hexp : p.exp < now
    · simp [verifyRefresh, hexp] at h
    · simp [verifyRefresh, hexp] at h
      rw [h]
  | garbage s => simp [verifyRefresh] at h

/-- A found user document carries the id it was looked up by. -/
theorem findById_some_id {db : List UserRec} {i : Nat} {u : UserRec}
    (h : findById db i = some u) : u.id = i := by
  have hp := List.find?_some h
  simpa using hp

/-- Saving a document whose id is the lookup key makes the lookup return it,
provided a document with that id was already stored. -/
theorem findById_saveUser {db : List UserRec} {i : Nat} {u u' : UserRec}
    (h : findById db i = some u) (hid : u'.id = i) :
    findById (saveUser db u') i = some u' := by
  induction db with
  | nil => cases h
  | cons v vs ih =>
    unfold findById saveUser at *
    simp only [List.find?_cons, List.map_cons] at *
    rcases hv : (v.id == i) with _ | _
    · rw [hv] at h
      have hvne : (v.id == u'.id) = false := by
        rw [hid]; exact hv
      simp only [hvne, if_neg, Bool.false_eq_true, if_false, hv]
      exact ih h
    · have hveq : (v.id == u'.id) = true := by
        rw [hid]; exact hv
      simp only [hveq, if_pos, if_true]
      have : (u'.id == i) = true := by
        rw [hid]; exact beq_self_eq_true i
      simp [this]

/-- Appending a fresh document with the lookup id to a store that lacks it
makes the lookup return the fresh document. -/
theorem findById_append {db : List UserRec} {i : Nat} {u : UserRec}
    (h : findById db i = none) (hid : u.id = i) :
    findById (db ++ [u]) i = some u := by
  induction db with
  | nil =>
    unfold findById
    simp [List.find?, hid]
  | cons v vs ih =>
    unfold findById at *
    simp only [List.find?_cons, List.cons_append] at *
    rcases hv : (v.id == i) with _ | _
    · rw [hv] at h
      simp only [List.find?_cons, hv]
      exact ih h
    · rw [hv] at h
      cases h

/-- Every run of `rotate` either leaves the user store alone, or reports
token reuse, or succeeds. -/
theorem rotate_state_cases (db : List UserRec) (now : Nat)
    (tok? : Option RefreshTok) :
    (rotate db now tok?).2 = db ∨
    (rotate db now tok?).1 = .error .tokenReuseDetected ∨
    (∃ r, (rotate db now tok?).1 = .ok r) := by
  unfold rotate
  repeat' split
  all_goals first
    | exact Or.inl rfl
    | exact Or.inr (Or.inl rfl)
    | exact Or.inr (Or.inr ⟨_, rfl⟩)

/-!
## Claims
-/

/-- The state after login in the C1 scenario: user 1 in family `fam` at
version 1, holding the hash of the version-1 refresh token `c1Tok1`. -/
def c1Tok1 : RefreshTok :=
  .signed { id := 1, tokenFamily := "fam", tokenVersion := 1, exp := 1000 }

/-- C1 scenario, store after login. -/
def c1Db0 : List UserRec :=
  [{ id := 1, tokenFamily := "fam", tokenVersion := 1,
     refreshTokenHash := .hashOf c1Tok1, revokedAt := none }]

/-- C1 scenario, store after the first (successful) rotation of `c1Tok1`. -/
def c1Db1 : List UserRec := (rotate c1Db0 0 (some c1Tok1)).2

/-- C1: the first presentation of `c1Tok1` rotates successfully; its second
presentation — a token already rotated away, payload version 1 strictly below
the stored version 2 — is rejected as generic `InvalidToken` by the bcrypt
hash comparison (the stored hash now commits to the version-2 token), the
store is left unchanged, and the principal is NOT revoked: `revokedAt` stays
`null` and the version/family/hash fields keep their post-rotation values.
The `TokenReuseDetected`/`revokeAllSessions` branch never runs, because the
hash check precedes the version comparison and a rotated-away token can no
longer match the stored hash. -/
theorem replayed_rotated_token_gets_invalidToken_not_reuse :
    (rotate c1Db0 0 (some c1Tok1)).1 =
      .ok { accessToken := mintAccess 1 0,
            refreshToken := mintRefresh 1 "fam" 2 0 } ∧
    rotate c1Db1 0 (some c1Tok1) = (.error .invalidToken, c1Db1) ∧
    c1Db1 = [{ id := 1, tokenFamily := "fam", tokenVersion := 2,
               refreshTokenHash := .hashOf (mintRefresh 1 "fam" 2 0),
               revokedAt := none }] := by
  refine ⟨rfl, rfl, rfl⟩

/-- C2: while `revokedAt` is non-null, any rotate call presenting any token
that verifies and names the principal is rejected with `SessionRevoked` and
leaves the store unchanged — independent of whether family, hash, or version
would otherwise match, since the revocation check precedes all of them; in
particular no such call can succeed. -/
theorem rotate_revoked_always_sessionRevoked
    (db : List UserRec) (now : Nat) (tok : RefreshTok) (pl : RefreshPayload)
    (u : UserRec)
    (hver : verifyRefresh now tok = .ok pl)
    (hu : findById db pl.id = some u)
    (hrev : u.revokedAt.isSome = true) :
    rotate db now (some tok) = (.error .sessionRevoked, db) := by
  simp [rotate, hver, hu, hrev]

/-- C2 witness: a concrete revoked principal whose stored family and version
would match the presented token, still rejected as `SessionRevoked`. -/
theorem rotate_revoked_always_sessionRevoked_witness :
    rotate
      [{ id := 7, tokenFamily := "f7", tokenVersion := 4,
         refreshTokenHash := .empty, revokedAt := some 3 }] 0
      (some (.signed { id := 7, tokenFamily := "f7", tokenVersion := 4, exp := 50 })) =
      (.error .sessionRevoked,
       [{ id := 7, tokenFamily := "f7", tokenVersion := 4,
          refreshTokenHash := .empty, revokedAt := some 3 }]) :=
  rotate_revoked_always_sessionRevoked _ 0 _
    { id := 7, tokenFamily := "f7", tokenVersion := 4, exp := 50 }
    { id := 7, tokenFamily := "f7", tokenVersion := 4,
      refreshTokenHash := .empty, revokedAt := some 3 }
    rfl rfl rfl

/-- C3: every rotate call rejected with an error other than
`TokenReuseDetected` — missing token, bad signature, expiry, missing
principal, revoked session, family mismatch, hash mismatch, or non-reuse
version mismatch — leaves the persisted session state of every principal
exactly as it was: the user store after the call equals the store before. -/
theorem rotate_rejection_preserves_state
    (db : List UserRec) (now : Nat) (tok? : Option RefreshTok) (e : RotateError)
    (h : (rotate db now tok?).1 = .error e)
    (hne : e ≠ RotateError.tokenReuseDetected) :
    (rotate db now tok?).2 = db := by
  rcases rotate_state_cases db now tok? with hdb | hre | ⟨r, hr⟩
  · exact hdb
  · rw [h] at hre
    injection hre with h2
    exact absurd h2 hne
  · rw [h] at hr
    cases hr

/-- C3 witness: a garbage token is rejected and the store is untouched. -/
theorem rotate_rejection_preserves_state_witness :
    (rotate
      [{ id := 2, tokenFamily := "g", tokenVersion := 1,
         refreshTokenHash := .empty, revokedAt := none }] 0
      (some (.garbage "tampered"))).2 =
      [{ id := 2, tokenFamily := "g", tokenVersion := 1,
         refreshTokenHash := .empty, revokedAt := none }] :=
  rotate_rejection_preserves_state _ 0 _ RotateError.invalidToken rfl
    (by decide)

/-- C4: when the presented token verifies, the principal exists and is not
revoked, and family, hash, and version all match the stored state, `rotate`
succeeds: it returns a fresh access token and a refresh token for the same
family with version incremented by exactly 1, persists the incremented
version and the hash of the new refresh token over the old one, and the
presented token no longer matches the stored hash afterwards. -/
theorem rotate_full_match_success
    (db : List UserRec) (now : Nat) (tok : RefreshTok) (pl : RefreshPayload)
    (u : UserRec)
    (hver : verifyRefresh now tok = .ok pl)
    (hu : findById db pl.id = some u)
    (hrev : u.revokedAt = none)
    (hfam : u.tokenFamily = pl.tokenFamily)
    (hhash : bcryptCompare tok u.refreshTokenHash = true)
    (hv : u.tokenVersion = pl.tokenVersion) :
    rotate db now (some tok) =
      (.ok { accessToken := mintAccess u.id now,
             refreshToken := mintRefresh u.id u.tokenFamily (u.tokenVersion + 1) now },
       saveUser db
         { u with refreshTokenHash :=
                    TokHash.hashOf (mintRefresh u.id u.tokenFamily (u.tokenVersion + 1) now),
                  tokenVersion := u.tokenVersion + 1 }) ∧
    bcryptCompare tok
      (TokHash.hashOf (mintRefresh u.id u.tokenFamily (u.tokenVersion + 1) now)) =
      false := by
  constructor
  · have hnotlt : ¬ pl.tokenVersion < u.tokenVersion := by
      rw [hv]; exact Nat.lt_irrefl _
    simp [rotate, hver, hu, hrev, hfam, hhash, hnotlt, hv]
  · have htok := verifyRefresh_ok_eq hver
    subst htok
    simp only [bcryptCompare, mintRefresh, decide_eq_false_iff_not]
    intro hcon
    have hpl := (TokHash.hashOf.injEq _ _).mp hcon
    have := (RefreshTok.signed.injEq _ _).mp hpl
    have hvv : pl.tokenVersion + 1 = pl.tokenVersion := by
      have h3 := congrArg RefreshPayload.tokenVersion this
      simp only [hv] at h3
      exact h3
    exact Nat.succ_ne_self _ hvv

/-- C4 witness: a concrete full-match rotation at version 5. -/
theorem rotate_full_match_success_witness :
    rotate
      [{ id := 9, tokenFamily := "f9", tokenVersion := 5,
         refreshTokenHash :=
           .hashOf (.signed { id := 9, tokenFamily := "f9", tokenVersion := 5, exp := 77 }),
         revokedAt := none }] 10
      (some (.signed { id := 9, tokenFamily := "f9", tokenVersion := 5, exp := 77 })) =
      (.ok { accessToken := mintAccess 9 10,
             refreshToken := mintRefresh 9 "f9" 6 10 },
       saveUser
         [{ id := 9, tokenFamily := "f9", tokenVersion := 5,
            refreshTokenHash :=
              .hashOf (.signed { id := 9, tokenFamily := "f9", tokenVersion := 5, exp := 77 }),
            revokedAt := none }]
         { id := 9, tokenFamily := "f9", tokenVersion := 6,
           refreshTokenHash := .hashOf (mintRefresh 9 "f9" 6 10),
           revokedAt := none }) ∧
    bcryptCompare
      (.signed { id := 9, tokenFamily := "f9", tokenVersion := 5, exp := 77 })
      (TokHash.hashOf (mintRefresh 9 "f9" 6 10)) = false :=
  rotate_full_match_success _ 10 _
    { id := 9, tokenFamily := "f9", tokenVersion := 5, exp := 77 }
    { id := 9, tokenFamily := "f9", tokenVersion := 5,
      refreshTokenHash :=
        .hashOf (.signed { id := 9, tokenFamily := "f9", tokenVersion := 5, exp := 77 }),
      revokedAt := none }
    rfl rfl rfl rfl (by decide) rfl

/-- The session-state contract of a fresh session: the stored document
carries the freshly drawn family, version 1, the one-way hash of the refresh
token that was just returned (never the token itself), and a cleared
`revokedAt`; the stored document is the one the lookup now returns. -/
def freshSession (fam : String) (uid : Nat) (o : AuthOk)
    (db' : List UserRec) : Prop :=
  o.user.tokenFamily = fam ∧ o.user.tokenVersion = 1 ∧
  o.user.refreshTokenHash = TokHash.hashOf o.refreshToken ∧
  o.user.revokedAt = none ∧ findById db' uid = some o.user

/-- C5: every successful login and every successful registration issues both
tokens (fields of the returned `AuthOk`) and persists session state with the
freshly generated random family, `tokenVersion = 1`, `refreshTokenHash` equal
to the one-way hash of the newly issued refresh token, and `revokedAt = null`. -/
theorem beginSession_fresh_on_login_and_register
    (db1 : List UserRec) (uid : Nat) (pw : Bool) (fam1 : String) (now1 : Nat)
    (o1 : AuthOk) (db1' : List UserRec)
    (hlogin : login db1 uid pw fam1 now1 = (.ok o1, db1'))
    (db2 : List UserRec) (nu : UserRec) (fam2 : String) (now2 : Nat)
    (o2 : AuthOk) (db2' : List UserRec)
    (hreg : register db2 nu fam2 now2 = (.ok o2, db2')) :
    freshSession fam1 uid o1 db1' ∧ freshSession fam2 nu.id o2 db2' := by
  constructor
  · unfold login at hlogin
    rcases hfind : findById db1 uid with _ | u
    · rw [hfind] at hlogin
      cases hlogin
    · rw [hfind] at hlogin
      by_cases hpw : pw
      · simp only [hpw, not_true, if_neg, if_false, Prod.mk.injEq] at hlogin
        rcases hlogin with ⟨ho, hdb⟩
        have ho' : beginSession u fam1 now1 = o1 := Except.ok.inj ho
        have hid : (beginSession u fam1 now1).user.id = uid := by
          simp [beginSession, findById_some_id hfind]
        refine ⟨?_, ?_, ?_, ?_, ?_⟩ <;>
          first
          | (rw [← ho']; rfl)
          | (rw [← hdb, ← ho']
             exact findById_saveUser hfind hid)
      · simp [hpw] at hlogin
  · unfold register at hreg
    rcases hfind : findById db2 nu.id with _ | u
    · rw [hfind] at hreg
      simp only [Prod.mk.injEq] at hreg
      rcases hreg with ⟨ho, hdb⟩
      have ho' : beginSession nu fam2 now2 = o2 := Except.ok.inj ho
      have hid : (beginSession nu fam2 now2).user.id = nu.id := by
        simp [beginSession]
      refine ⟨?_, ?_, ?_, ?_, ?_⟩ <;>
        first
        | (rw [← ho']; rfl)
        | (rw [← hdb, ← ho']
           exact findById_append hfind hid)
    · rw [hfind] at hreg
      cases hreg

/-- C5 witness: a concrete login for user 3 and a concrete registration of
user 4 against disjoint stores. -/
theorem beginSession_fresh_on_login_and_register_witness :
    freshSession "famA" 3
      (beginSession
        { id := 3, tokenFamily := "old", tokenVersion := 6,
          refreshTokenHash := .empty, revokedAt := some 2 } "famA" 11)
      (saveUser
        [{ id := 3, tokenFamily := "old", tokenVersion := 6,
           refreshTokenHash := .empty, revokedAt := some 2 }]
        (beginSession
          { id := 3, tokenFamily := "old", tokenVersion := 6,
            refreshTokenHash := .empty, revokedAt := some 2 } "famA" 11).user) ∧
    freshSession "famB" 4
      (beginSession
        { id := 4, tokenFamily := "", tokenVersion := 0,
          refreshTokenHash := .empty, revokedAt := none } "famB" 12)
      ([] ++
       [(beginSession
          { id := 4, tokenFamily := "", tokenVersion := 0,
            refreshTokenHash := .empty, revokedAt := none } "famB" 12).user]) :=
  beginSession_fresh_on_login_and_register
    [{ id := 3, tokenFamily := "old", tokenVersion := 6,
       refreshTokenHash := .empty, revokedAt := some 2 }] 3 true "famA" 11 _ _
    rfl
    [] { id := 4, tokenFamily := "", tokenVersion := 0,
         refreshTokenHash := .empty, revokedAt := none } "famB" 12 _ _
    rfl

/-- C6: with the cache tier available, `recordView` is a two-branch function
of the atomic insert-if-absent: when the dedup key is absent, the key is set,
the durable counter of the content item is incremented by exactly 1 (its
document bumped in place, all others untouched), and
`{ incremented: true, views: newCount }` is returned; when the key is
present, neither store changes and
`{ incremented: false, views: currentCount }` is returned with the stored
count.  Neither branch carries a `degraded` field. -/
theorem recordView_cache_available_two_branches
    (db : List VlogRec) (c : CacheState) (now ttl : Nat) (cid vid : String)
    (v : VlogRec)
    (hv : findVlog db cid = some v)
    (hup : c.available = true) :
    (cacheHasKey c (viewKey cid vid) now = false →
      recordView db c now ttl cid vid =
        (.ok { incremented := true, views := v.views + 1, degraded := none },
         db.map (fun w => if w.id == cid then { v with views := v.views + 1 } else w),
         { c with entries := (viewKey cid vid, now + ttl) :: c.entries })) ∧
    (cacheHasKey c (viewKey cid vid) now = true →
      recordView db c now ttl cid vid =
        (.ok { incremented := false, views := v.views, degraded := none },
         db, c)) := by
  constructor
  · intro hk
    simp [recordView, setNxEx, hup, hk, findByIdAndUpdateIncViews, hv]
  · intro hk
    simp [recordView, setNxEx, hup, hk, hv]

/-- C6 witness: content `v1` at 5 views; a first view with an empty cache
counts (5 → 6). -/
theorem recordView_cache_available_two_branches_witness :
    recordView [{ id := "v1", views := 5 }]
      { available := true, entries := [] } 0 300 "v1" "alice" =
      (.ok { incremented := true, views := 6, degraded := none },
       [{ id := "v1", views := 6 }],
       { available := true, entries := [(viewKey "v1" "alice", 300)] }) := by
  have h :=
    (recordView_cache_available_two_branches
      [{ id := "v1", views := 5 }] { available := true, entries := [] }
      0 300 "v1" "alice" { id := "v1", views := 5 } rfl rfl).1 rfl
  simpa using h

/-- C7: when the cache primitive throws or times out, `recordView` absorbs
the failure: it still succeeds, increments the durable counter by exactly 1,
and returns `{ incremented: true, views: newCount, degraded: true }` with the
cache state untouched; moreover no run of `recordView`, on any input
whatsoever, ever surfaces `CacheUnavailable` as its error result. -/
theorem recordView_degraded_nonblocking
    (db : List VlogRec) (c : CacheState) (now ttl : Nat) (cid vid : String)
    (v : VlogRec)
    (hv : findVlog db cid = some v)
    (hdown : c.available = false) :
    recordView db c now ttl cid vid =
      (.ok { incremented := true, views := v.views + 1, degraded := some true },
       db.map (fun w => if w.id == cid then { v with views := v.views + 1 } else w),
       c) ∧
    ∀ (db2 : List VlogRec) (c2 : CacheState) (now2 ttl2 : Nat)
      (cid2 vid2 : String),
      (recordView db2 c2 now2 ttl2 cid2 vid2).1 ≠
        Except.error JsFault.cacheUnavailable := by
  constructor
  · simp [recordView, setNxEx, hdown, recordViewCatch,
          findByIdAndUpdateIncViews, hv]
  · intro db2 c2 now2 ttl2 cid2 vid2
    unfold recordView recordViewCatch
    repeat' split
    all_goals simp

/-- C7 witness: content `v1` at 5 views, cache down; the view still counts
and is flagged `degraded`. -/
theorem recordView_degraded_nonblocking_witness :
    recordView [{ id := "v1", views := 5 }]
      { available := false, entries := [] } 0 300 "v1" "alice" =
      (.ok { incremented := true, views := 6, degraded := some true },
       [{ id := "v1", views := 6 }],
       { available := false, entries := [] }) := by
  have h :=
    (recordView_degraded_nonblocking
      [{ id := "v1", views := 5 }] { available := false, entries := [] }
      0 300 "v1" "alice" { id := "v1", views := 5 } rfl rfl).1
  simpa using h

/-- C8 (code evaluation at the failing input of the repository's own test
`viewCountRedis.test.js`, "Should increment view even when Redis is down"):
with the cache down and `chaos_vlog` at 998 views, the service returns
`{ incremented: true, views: 999, degraded: true }`, but the HTTP controller
builds `{ views: 999, hasViewed: true, incremented: true, ttl: 300 }` —
the `degraded` flag is absent (`none`) from the response body even though the
underlying `recordView` ran in degraded mode. -/
theorem recordView_endpoint_drops_degraded_flag :
    (recordView [{ id := "chaos_vlog", views := 998 }]
      { available := false, entries := [] } 0 300 "chaos_vlog" "u").1 =
      .ok { incremented := true, views := 999, degraded := some true } ∧
    (recordViewEndpoint [{ id := "chaos_vlog", views := 998 }]
      { available := false, entries := [] } 0 300 "chaos_vlog" "u").1 =
      .ok { views := 999, hasViewed := true, incremented := true,
            ttl := 300, degraded := none } :=
  ⟨rfl, rfl⟩

/-- A single fetch leaves the vlog store exactly as it was. -/
theorem getVlog_preserves_store (db : List VlogRec) (i : String) :
    (getVlog db i).2 = db := by
  unfold getVlog
  split <;> rfl

/-- C9: the read-only fetch/list operations never modify the durable view
counters — after any sequence of fetch-one/list calls the vlog store (hence
the `views` field of every content item) is identical to what it was — and
any service call that does change the store is the explicit `recordView`
entry point. -/
theorem fetch_list_never_change_views
    (now ttl : Nat) (st : SvcState) (ops : List SvcOp)
    (hro : ∀ op ∈ ops, isReadOnlyOp op = true) :
    (ops.foldl (applyOp now ttl) st).vlogs = st.vlogs ∧
    ∀ (st2 : SvcState) (op : SvcOp),
      (applyOp now ttl st2 op).vlogs ≠ st2.vlogs →
        ∃ i w, op = SvcOp.record i w := by
  have hstep : ∀ (st2 : SvcState) (op : SvcOp), isReadOnlyOp op = true →
      applyOp now ttl st2 op = st2 := by
    intro st2 op hop
    cases op with
    | fetchOne i => simp [applyOp, getVlog_preserves_store]
    | listAll => simp [applyOp, listVlogs]
    | record i w => cases hop
  constructor
  · induction ops generalizing st with
    | nil => rfl
    | cons op rest ih =>
      have hop : isReadOnlyOp op = true := hro op (List.mem_cons_self op rest)
      have hrest : ∀ o ∈ rest, isReadOnlyOp o = true := fun o ho =>
        hro o (List.mem_cons_of_mem op ho)
      simp only [List.foldl_cons, hstep st op hop]
      exact ih st hrest
  · intro st2 op hch
    cases op with
    | fetchOne i =>
      exact absurd (congrArg SvcState.vlogs (hstep st2 (SvcOp.fetchOne i) rfl)) hch
    | listAll =>
      exact absurd (congrArg SvcState.vlogs (hstep st2 SvcOp.listAll rfl)) hch
    | record i w => exact ⟨i, w, rfl⟩

/-- C9 witness: a fetch followed by a list over a concrete store leaves the
store untouched. -/
theorem fetch_list_never_change_views_witness :
    (([SvcOp.fetchOne "v1", SvcOp.listAll, SvcOp.fetchOne "missing"]).foldl
      (applyOp 0 300)
      { vlogs := [{ id := "v1", views := 5 }],
        cache := { available := true, entries := [] } }).vlogs =
      [{ id := "v1", views := 5 }] :=
  (fetch_list_never_change_views 0 300
    { vlogs := [{ id := "v1", views := 5 }],
      cache := { available := true, entries := [] } }
    [SvcOp.fetchOne "v1", SvcOp.listAll, SvcOp.fetchOne "missing"]
    (by decide)).1

/-- C10: for a content id with no stored record, `recordView` never produces
the documented `{ incremented, views }` shape: on every branch — new view,
duplicate view, and cache-down alike — the counter lookup yields `null` and
reading its `views` field throws a `TypeError`, so the call fails. -/
theorem recordView_missing_vlog_faults
    (db : List VlogRec) (c : CacheState) (now ttl : Nat) (cid vid : String)
    (hmiss : findVlog db cid = none) :
    (recordView db c now ttl cid vid).1 = .error .typeError := by
  unfold recordView recordViewCatch setNxEx
  simp [findByIdAndUpdateIncViews, hmiss]
  repeat' split
  all_goals simp [findByIdAndUpdateIncViews, hmiss]

/-- C10 witness: an empty vlog store faults on the view of `ghost`. -/
theorem recordView_missing_vlog_faults_witness :
    (recordView [] { available := true, entries := [] } 0 300 "ghost" "a").1 =
      .error .typeError :=
  recordView_missing_vlog_faults [] { available := true, entries := [] }
    0 300 "ghost" "a" rfl

end VlogSphere
